import Mathlib

set_option maxRecDepth 8000

/-!
Verification of the message-routing and streaming-delivery subsystem of the
cc-discord repository against its natural-language specification.

The development shallowly embeds the relevant TypeScript sources:
  - src/adapter/claude-code-adapter.ts  (ClaudeCodeAdapter: query, retry, resetSession)
  - src/actors/claude-code-actor.ts     (ClaudeCodeActor: handleMessage, streaming emission)
  - src/adapter/discord-adapter.ts      (DiscordAdapter: stream buffer engine)
  - src/message-bus.ts                  (SimpleMessageBus: send, emit)
JavaScript strings are modelled as Lean String, machine integers as Nat,
thrown exceptions as an explicit JsError value, and the nondeterministic
environment (Deno.cwd, PATH, the claude CLI probe, session history files)
as an explicit Env record threaded through the definitions.
-/

namespace CcDiscord

/-- Substring test: does `hay` contain `needle` as a contiguous substring?
Models the JavaScript String.prototype.includes. -/
def containsSub (hay needle : String) : Bool :=
  hay.data.tails.any (fun t => needle.data.isPrefixOf t)

/-- JavaScript String.prototype.toLowerCase, character by character (the
repository only lowercases ASCII error messages). -/
def jsToLowerCase (s : String) : String :=
  String.mk (s.data.map Char.toLower)

/-- JavaScript String.prototype.length.  The sources use it only to bound
payload sizes, where code points are an adequate model of UTF-16 units. -/
def jsLength (s : String) : Nat :=
  s.data.length

/-- JavaScript s.slice(0, n) and s.substring(0, n) for non-negative n. -/
def jsTake (s : String) (n : Nat) : String :=
  String.mk (s.data.take n)

/-- JavaScript String.prototype.trim: strip whitespace at both ends. -/
def jsTrim (s : String) : String :=
  String.mk (((s.data.dropWhile Char.isWhitespace).reverse.dropWhile
    Char.isWhitespace).reverse)

/-- JavaScript String.prototype.split with a single-character separator,
on the character list of the string. -/
def splitOnCharList (sep : Char) : List Char → List (List Char)
  | [] => [[]]
  | c :: cs =>
      let r := splitOnCharList sep cs
      if c = sep then [] :: r
      else
        match r with
        | [] => [[c]]
        | h :: t => (c :: h) :: t

/-- JavaScript String.prototype.split with a single-character separator. -/
def jsSplit (s : String) (sep : Char) : List String :=
  (splitOnCharList sep s.data).map String.mk

/-- JavaScript Array.prototype.join. -/
def jsJoin (sep : String) : List String → String
  | [] => ""
  | [x] => x
  | x :: xs => x ++ sep ++ jsJoin sep xs

/-- JavaScript truthiness of an optional string value: undefined and the
empty string are falsy, every other string is truthy. -/
def truthyStr : Option String → Bool
  | none => false
  | some s => !(s == "")

/-- JavaScript truthiness of an optional boolean value: undefined and false
are falsy. -/
def truthyFlag : Option Bool → Bool
  | none => false
  | some b => b

/-- JavaScript a || b for an optional string with a string default:
undefined and the empty string fall through to the default. -/
def jsOrStr (o : Option String) (d : String) : String :=
  match o with
  | none => d
  | some s => if s == "" then d else s

/-- A thrown JavaScript Error value: its name (e.g. AbortError) and message. -/
structure JsError where
  name : String
  message : String
deriving DecidableEq, Repr

/-- Streaming display mode, the streamingUpdateMode configuration value. -/
inductive UpdateMode where
  | edit
  | append
deriving DecidableEq, Repr

/-- The configuration fields of Config (src/config.ts) that the embedded
components read or write.  Optional interface fields are Option. -/
structure Config where
  sessionId : Option String
  continueSession : Option Bool
  maxTurns : Nat
  model : String
  claudePermissionMode : Option String
  streamingEnabled : Option Bool
  streamingUpdateMode : Option UpdateMode
  streamingIntervalMs : Option Nat
  streamingShowThinking : Option Bool
  streamingShowDone : Option Bool
  streamingShowAbort : Option Bool
deriving DecidableEq, Repr

/-- The engine call options object built inside ClaudeCodeAdapter.query.
The field continueOpt models presence of a continue:true entry and
resumeOpt the resume entry (absent when none); continue is a reserved
word in Lean, hence the Opt suffixes. -/
structure CallOptions where
  maxTurns : Nat
  model : String
  permissionMode : Option String
  continueOpt : Bool
  resumeOpt : Option String
deriving DecidableEq, Repr

/-- A content block of an assistant message from the engine stream. -/
inductive ContentBlock where
  | text (t : String)
  | toolUse (name : Option String) (input : Option String)
  | otherBlock
deriving DecidableEq, Repr

/-- The content of a tool_result item: either a plain string, or a
non-string structured value carried as its JSON.stringify rendering. -/
inductive ToolContent where
  | str (s : String)
  | nonStr (json : String)
deriving DecidableEq, Repr

/-- An item of a user message from the engine stream. -/
inductive UserItem where
  | toolResult (toolUseId : Option String) (isError : Bool) (content : ToolContent)
  | otherItem
deriving DecidableEq, Repr

/-- A message yielded by the engine client stream, as discriminated by the
adapter loop: assistant text (string or block array), system/init,
result, user (tool results), or anything else. -/
inductive EngineMsg where
  | assistantStr (content : String)
  | assistantArr (blocks : List ContentBlock)
  | systemInit (sessionId : String)
  | resultMsg (sessionId : String)
  | userMsg (items : List UserItem)
  | otherMsg
deriving DecidableEq, Repr

/-- The observable behaviour of one engine client invocation: the messages
it yields in order, then optionally a thrown error (a throw may follow
any number of yielded messages). -/
structure CallResult where
  msgs : List EngineMsg
  thrown : Option JsError
deriving DecidableEq, Repr

/-- An engine client behaviour: the outcome of the n-th invocation (0-based)
as a function of the call options and prompt it receives. -/
def Client : Type :=
  Nat → CallOptions → String → CallResult

/-- The ambient environment read by the adapter: working directory, PATH,
the outcome of the claude CLI version probe (none when the probe fails),
and the formatted conversation history of the latest session when one is
available and non-empty. -/
structure Env where
  cwd : String
  path : String
  cliVersionOut : Option String
  historyText : Option String

/-- The mutable fields of ClaudeCodeAdapter together with its config. -/
structure AdapterState where
  config : Config
  currentSessionId : Option String
  isFirstQuery : Bool
  preflightChecked : Bool
deriving DecidableEq, Repr

/-- The ClaudeCodeAdapter constructor: isFirstQuery starts true and is set
false when config.sessionId is truthy (also adopting it as the current
session id) and again when config.continueSession is truthy. -/
def mkAdapter (config : Config) : AdapterState :=
  let s0 : AdapterState :=
    { config := config, currentSessionId := none
    , isFirstQuery := true, preflightChecked := false }
  let s1 := if truthyStr config.sessionId then
      { s0 with isFirstQuery := false, currentSessionId := config.sessionId }
    else s0
  if truthyFlag config.continueSession then { s1 with isFirstQuery := false } else s1

/-- The options object built by query/queryStream: continue is present
unless this is the first query of a non-continued session, and resume is
present exactly when config.sessionId is truthy and isFirstQuery holds. -/
def buildOptions (st : AdapterState) : CallOptions :=
  { maxTurns := st.config.maxTurns
  , model := st.config.model
  , permissionMode := st.config.claudePermissionMode
  , continueOpt := !(st.isFirstQuery && !(truthyFlag st.config.continueSession))
  , resumeOpt :=
      if truthyStr st.config.sessionId && st.isFirstQuery then st.config.sessionId
      else none }

/-- Prompt preparation at the top of query: when continuing a session for
the first query without an explicit session id, prepend the formatted
conversation history when one is available. -/
def buildActualPrompt (env : Env) (st : AdapterState) (prompt : String) : String :=
  if truthyFlag st.config.continueSession && st.isFirstQuery
      && !(truthyStr st.config.sessionId) then
    match env.historyText with
    | some h =>
        "以下は前回の会話の続きです:\n\n" ++ h ++ "\n\n---\n\n現在のメッセージ: " ++ prompt
    | none => prompt
  else prompt

/-- The 300-character truncation applied to tool_result content inside the
adapter message loop. -/
def truncate300 (s : String) : String :=
  if jsLength s > 300 then jsTake s 300 ++ "..." else s

/-- Concatenation of the text blocks of an assistant content array. -/
def blockTexts : List ContentBlock → String
  | [] => ""
  | ContentBlock.text t :: bs => t ++ blockTexts bs
  | _ :: bs => blockTexts bs

/-- The toolResults accumulation of the adapter loop for one user message:
every string-valued tool_result item appends a fenced, 300-character
truncated block. -/
def toolResultsOf : List UserItem → String
  | [] => ""
  | UserItem.toolResult _ _ (ToolContent.str c) :: items =>
      "\n📋 Tool execution result:\n```\n" ++ truncate300 c ++ "\n```\n"
        ++ toolResultsOf items
  | _ :: items => toolResultsOf items

/-- Accumulator of the for-await loop in ClaudeCodeAdapter.query. -/
structure LoopAcc where
  fullResponse : String
  toolResults : String
  st : AdapterState
deriving DecidableEq, Repr

/-- One iteration of the adapter message loop: assistant text accumulates,
system/init adopts the session id and clears isFirstQuery, result adopts
the session id, user messages accumulate tool results. -/
def processMsg (acc : LoopAcc) : EngineMsg → LoopAcc
  | EngineMsg.assistantStr c =>
      { acc with fullResponse := acc.fullResponse ++ c }
  | EngineMsg.assistantArr bs =>
      { acc with fullResponse := acc.fullResponse ++ blockTexts bs }
  | EngineMsg.systemInit sid =>
      { acc with st := { acc.st with currentSessionId := some sid, isFirstQuery := false } }
  | EngineMsg.resultMsg sid =>
      { acc with st := { acc.st with currentSessionId := some sid } }
  | EngineMsg.userMsg items =>
      { acc with toolResults := acc.toolResults ++ toolResultsOf items }
  | EngineMsg.otherMsg => acc

/-- Run the adapter message loop over the yielded messages. -/
def runMsgs (st : AdapterState) (msgs : List EngineMsg) : LoopAcc :=
  msgs.foldl processMsg { fullResponse := "", toolResults := "", st := st }

/-- Outcome of one engine invocation as performed inside the try block of
query: the state after processing the yielded messages, the result (the
final response text, or the thrown error), and the messages that were
delivered to the progress callback. -/
structure AttemptOut where
  result : Except JsError String
  st : AdapterState
  progress : List EngineMsg
deriving Repr

/-- One engine invocation of the adapter: build the actual prompt and the
options, invoke the client, fold the yielded messages, then either
propagate the thrown error or assemble the final text (tool results
first, then the assistant text, falling back to a fixed notice). -/
def queryAttempt (client : Client) (idx : Nat) (env : Env) (st : AdapterState)
    (prompt : String) : AttemptOut :=
  let actualPrompt := buildActualPrompt env st prompt
  let opts := buildOptions st
  let cr := client idx opts actualPrompt
  let acc := runMsgs st cr.msgs
  match cr.thrown with
  | some e => { result := Except.error e, st := acc.st, progress := cr.msgs }
  | none =>
      let fullResponse :=
        if acc.toolResults == "" then acc.fullResponse
        else acc.toolResults
          ++ (if acc.fullResponse == "" then "" else "\n" ++ acc.fullResponse)
      { result := Except.ok (if fullResponse == "" then "No response received." else fullResponse)
      , st := acc.st, progress := cr.msgs }

/-- The rate-limit heuristic: the case-insensitive regular expression
matching 429, rate limit (with optional space or hyphen), or
too many requests. -/
def rateLimitedHeur (msg : String) : Bool :=
  let m := jsToLowerCase msg
  containsSub m "429" || containsSub m "ratelimit" || containsSub m "rate limit"
    || containsSub m "rate-limit" || containsSub m "too many requests"

/-- shouldRunPreflight: the error text suggests a process-spawn problem. -/
def shouldRunPreflight (message : String) : Bool :=
  let m := jsToLowerCase message
  containsSub m "exited with code 1" || containsSub m "exited with code"
    || containsSub m "spawn" || containsSub m "enoent"
    || containsSub m "not found" || containsSub m "eacces"

/-- checkClaudeCliPresence: the probe reports the trimmed version output,
falling back to the word present for empty output, and a fixed failure
marker when the probe fails for any reason. -/
def checkClaudeCliPresence (env : Env) : String :=
  match env.cliVersionOut with
  | some v => if v == "" then "present" else v
  | none => "not_found_or_failed"

/-- The best-effort diagnostic hint appended to a propagated error, and the
preflightChecked update: the CLI probe runs at most once per adapter and
only when the error text suggests a spawn problem. -/
def buildDiagnostics (env : Env) (st : AdapterState) (rawMsg : String) :
    String × AdapterState :=
  let permissionMode := st.config.claudePermissionMode.getD "auto"
  let firstPath := ((jsSplit env.path ':').headD "")
  let rateLimited := rateLimitedHeur rawMsg
  let probe :=
    if shouldRunPreflight rawMsg && !st.preflightChecked then
      (checkClaudeCliPresence env, { st with preflightChecked := true })
    else ("unknown", st)
  ("\nhint: permissionMode=" ++ permissionMode ++ ", cwd=" ++ env.cwd
      ++ ", PATH[0]=" ++ firstPath ++ ", cli=" ++ probe.1
      ++ ", rate_limited=" ++ toString rateLimited
  , probe.2)

/-- resetSession: set isFirstQuery true and clear the current session id. -/
def resetSession (st : AdapterState) : AdapterState :=
  { st with isFirstQuery := true, currentSessionId := none }

/-- The session-loss classifier: a case-insensitive substring match of the
error message against the fixed list of session-loss phrases. -/
def isSessionNotFound (message : String) : Bool :=
  let m := jsToLowerCase message
  containsSub m "no conversation found with session id"
    || containsSub m "session not found"
    || containsSub m "invalid session"
    || containsSub m "session does not exist"

/-- The observable outcome of ClaudeCodeAdapter.query: its returned text or
thrown error, the adapter state afterwards, the number of engine client
invocations performed, and the messages delivered to the progress
callback across those invocations. -/
structure QueryOut where
  result : Except JsError String
  st : AdapterState
  calls : Nat
  progress : List EngineMsg
deriving Repr

/-- ClaudeCodeAdapter.query invoked with isRetry = true: the retry branch of
the catch is disabled, so an AbortError is rethrown as Query was aborted
and every other error is wrapped with the diagnostic hint. -/
def queryRetry (client : Client) (env : Env) (st : AdapterState) (prompt : String) :
    QueryOut :=
  let a := queryAttempt client 1 env st prompt
  match a.result with
  | Except.ok text =>
      { result := Except.ok text, st := a.st, calls := 1, progress := a.progress }
  | Except.error e =>
      if e.name == "AbortError" then
        { result := Except.error { name := "Error", message := "Query was aborted" }
        , st := a.st, calls := 1, progress := a.progress }
      else
        let hs := buildDiagnostics env a.st e.message
        { result := Except.error
            { name := "Error", message := "ClaudeCodeAdapter: " ++ e.message ++ hs.1 }
        , st := hs.2, calls := 1, progress := a.progress }

/-- The state from which the retry runs: the session is reset and the two
session-related config fields are temporarily cleared (sessionId set to
undefined and continueSession set to false). -/
def retryState (a : AdapterState) : AdapterState :=
  { resetSession a with config :=
    { (resetSession a).config with sessionId := none, continueSession := some false } }

/-- Restoration of the caller-visible configuration after the retry: the
sessionId and continueSession fields are set back to their captured
original values. -/
def restoreConfig (st : AdapterState) (original : Config) : AdapterState :=
  { st with config :=
    { st.config with sessionId := original.sessionId
                   , continueSession := original.continueSession } }

/-- ClaudeCodeAdapter.query (isRetry = false).  On a thrown error that is
not an abort, whose message matches a session-loss phrase, and while
config.sessionId or config.continueSession is configured: reset the
session, temporarily clear both config fields, retry exactly once with
isRetry = true, and restore the two config fields regardless of the
retry outcome; a failed retry falls through to rethrowing the original
error with the diagnostic hint. -/
def query (client : Client) (env : Env) (st : AdapterState) (prompt : String) :
    QueryOut :=
  let a := queryAttempt client 0 env st prompt
  match a.result with
  | Except.ok text =>
      { result := Except.ok text, st := a.st, calls := 1, progress := a.progress }
  | Except.error e =>
      if e.name == "AbortError" then
        { result := Except.error { name := "Error", message := "Query was aborted" }
        , st := a.st, calls := 1, progress := a.progress }
      else if isSessionNotFound e.message
          && (truthyStr a.st.config.sessionId || truthyFlag a.st.config.continueSession) then
        let r := queryRetry client env (retryState a.st) prompt
        match r.result with
        | Except.ok text =>
            { result := Except.ok text, st := restoreConfig r.st a.st.config
            , calls := 1 + r.calls, progress := a.progress ++ r.progress }
        | Except.error _retryError =>
            let hs := buildDiagnostics env (restoreConfig r.st a.st.config) e.message
            { result := Except.error
                { name := "Error", message := "ClaudeCodeAdapter: " ++ e.message ++ hs.1 }
            , st := hs.2, calls := 1 + r.calls, progress := a.progress ++ r.progress }
      else
        let hs := buildDiagnostics env a.st e.message
        { result := Except.error
            { name := "Error", message := "ClaudeCodeAdapter: " ++ e.message ++ hs.1 }
        , st := hs.2, calls := 1, progress := a.progress }

/-- An AbortController, reduced to its aborted flag. -/
structure AbortController where
  aborted : Bool
deriving DecidableEq, Repr

/-- ClaudeCodeAdapter.stop: abort the current AbortController when one
exists. -/
def stopAdapter (abortController : Option AbortController) : Option AbortController :=
  match abortController with
  | some c => some { c with aborted := true }
  | none => none

/-- The argument record the adapter passes to ClaudeClient.query: prompt,
options and the current AbortController. -/
structure ClientQueryArgs where
  prompt : String
  options : CallOptions
  abortController : Option AbortController
deriving DecidableEq, Repr

/-- The argument record that reaches the engine SDK call, with the abort
wiring it actually receives in the signal field. -/
structure SdkQueryArgs where
  prompt : String
  options : CallOptions
  signal : Option AbortController
deriving DecidableEq, Repr

/-- createClaudeClient: the real client factory forwards prompt and options
to sdkQuery and, per its source comment, passes no abort signal at all
because the current SDK does not accept one. -/
def createClaudeClient (args : ClientQueryArgs) : SdkQueryArgs :=
  { prompt := args.prompt, options := args.options, signal := none }

/-- The adapter states reachable through the operations the claims range
over: construction, queries, and resetSession. -/
inductive Reachable : AdapterState → Prop where
  | constructed (config : Config) : Reachable (mkAdapter config)
  | queried (client : Client) (env : Env) (prompt : String) (st : AdapterState) :
      Reachable st → Reachable (query client env st prompt).st
  | reset (st : AdapterState) : Reachable st → Reachable (resetSession st)

/-- A sample configuration carrying both a resume session id and the
continue flag, as produced by starting the bot with both options. -/
def cfgBoth : Config :=
  { sessionId := some "s", continueSession := some true
  , maxTurns := 300, model := "claude-opus-4-20250514", claudePermissionMode := none
  , streamingEnabled := none, streamingUpdateMode := none, streamingIntervalMs := none
  , streamingShowThinking := none, streamingShowDone := none, streamingShowAbort := none }

/-- A sample environment for concrete evaluations. -/
def envSample : Env :=
  { cwd := "/work", path := "/usr/bin:/bin", cliVersionOut := none, historyText := none }

/-- A client behaviour that always throws a non-session network error. -/
def netErrClient : Client := fun _ _ _ =>
  { msgs := [], thrown := some { name := "Error", message := "Network error: Connection refused" } }

/-- A client behaviour that always throws an abort-typed error. -/
def abortErrClient : Client := fun _ _ _ =>
  { msgs := [], thrown := some { name := "AbortError", message := "The operation was aborted" } }

/-- A client behaviour that throws a session-loss error on its first
invocation and succeeds on the second, mirroring the SessionErrorClient
of the repository test suite. -/
def sessionLossClient : Client := fun i _ _ =>
  if i == 0 then
    { msgs := []
    , thrown := some { name := "Error"
                     , message := "No conversation found with session ID: test-session-id" } }
  else
    { msgs := [EngineMsg.systemInit "new-session-1"
             , EngineMsg.assistantStr "Hello! This is a new session."]
    , thrown := none }

/-! Embedding of the AI-query actor (ClaudeCodeActor.handleMessage and its
streaming emission, including the truncateLines helper). -/

/-- The payload of a bus message, as a tagged union of the payload shapes
the embedded components construct or inspect. -/
inductive Payload where
  | textPayload (text : Option String) (originalMessageId : Option String)
      (channelId : Option String)
  | errorPayload (error : String)
  | responsePayload (text : String) (sessionId : Option String)
  | startedPayload (originalMessageId : String) (channelId : String)
      (metaSessionId : Option String)
  | deltaPayload (originalMessageId : String) (channelId : String) (textDelta : String)
  | toolPayload (originalMessageId : String) (channelId : String) (toolChunk : String)
  | completedPayload (originalMessageId : String) (channelId : String)
      (fullText : String) (sessionId : Option String)
  | errorEvPayload (originalMessageId : String) (channelId : String)
      (message : String) (fatal : Bool)
  | notePayload (originalMessageId : String) (channelId : String) (text : String)
deriving DecidableEq, Repr

/-- A bus message (ActorMessage).  The source fields from and to are the
Lean keywords, hence fromName and toName; the timestamp is external
wall-clock data and is omitted. -/
structure ActorMsg where
  id : String
  fromName : String
  toName : String
  type : String
  payload : Payload
deriving DecidableEq, Repr

/-- ClaudeCodeActor.createResponse: the id is derived as
originalMessageId-response, or a random uuid (modelled as a fixed
placeholder, as no claim depends on it) when no id is given. -/
def createResponse (name toName type : String) (payload : Payload)
    (originalMessageId : Option String) : ActorMsg :=
  { id :=
      match originalMessageId with
      | some o => o ++ "-response"
      | none => "random-uuid"
  , fromName := name, toName := toName, type := type, payload := payload }

/-- A stream event emitted by the actor onto the bus, addressed to the
discord adapter (its random uuid id is a fixed placeholder). -/
def mkStreamEvent (name type : String) (payload : Payload) : ActorMsg :=
  { id := "random-uuid", fromName := name, toName := "discord"
  , type := type, payload := payload }

/-- truncateLines of the actor: content of at most maxLines lines passes
through unchanged; longer content is replaced by its first 25 lines, a
lines-omitted marker, and its last 10 lines, rejoined with newlines. -/
def truncateLines (text : String) (maxLines : Nat) : String :=
  let lines := jsSplit text '\n'
  if lines.length ≤ maxLines then text
  else
    let headLines := 25
    let tailLines := 10
    let omittedLines := lines.length - headLines - tailLines
    jsJoin "\n" (lines.take headLines
      ++ ["\n... " ++ toString omittedLines ++ " lines omitted ...\n"]
      ++ lines.drop (lines.length - tailLines))

/-- The toolChunk the actor builds for an assistant tool_use block. -/
def toolUseChunk (name : Option String) (input : Option String) : String :=
  let toolInfo := "🔧 **ツール使用**: `" ++ jsOrStr name "unknown" ++ "`\n"
  let toolParams :=
    match input with
    | some paramsJson =>
        "📋 **パラメータ**: \n```json\n" ++ truncateLines paramsJson 50 ++ "\n```\n"
    | none => ""
  toolInfo ++ toolParams

/-- The raw string content of a tool_result item: the string itself, or the
JSON.stringify rendering of a non-string value. -/
def contentRaw : ToolContent → String
  | ToolContent.str s => s
  | ToolContent.nonStr j => j

/-- The toolChunk the actor builds for a tool_result item: a success or
error header followed by the line-truncated content in a code fence. -/
def toolResultChunk (toolUseId : Option String) (isError : Bool) (raw : String) : String :=
  let resultHeader :=
    if isError then "❌ **ツールエラー** (ID: " ++ jsOrStr toolUseId "unknown" ++ "):\n"
    else "✅ **ツール実行結果** (ID: " ++ jsOrStr toolUseId "unknown" ++ "):\n"
  resultHeader ++ "```\n" ++ truncateLines raw 50 ++ "\n```\n"

/-- The stream-partial events the actor emits for the tool_use blocks of an
assistant message, in block order. -/
def assistantToolEvents (name origId chanId : String) : List ContentBlock → List ActorMsg
  | [] => []
  | ContentBlock.toolUse n inp :: bs =>
      mkStreamEvent name "stream-partial"
          (Payload.toolPayload origId chanId (toolUseChunk n inp))
        :: assistantToolEvents name origId chanId bs
  | _ :: bs => assistantToolEvents name origId chanId bs

/-- The stream-partial events the actor emits for the tool_result items of a
user message, in item order. -/
def userItemEvents (name origId chanId : String) : List UserItem → List ActorMsg
  | [] => []
  | UserItem.toolResult tid isErr c :: items =>
      mkStreamEvent name "stream-partial"
          (Payload.toolPayload origId chanId (toolResultChunk tid isErr (contentRaw c)))
        :: userItemEvents name origId chanId items
  | _ :: items => userItemEvents name origId chanId items

/-- The events the actor progress callback emits for one engine message:
a textDelta event for non-empty assistant text, tool_use announcements,
and tool_result chunks; system and result messages emit nothing. -/
def progressEvents (name origId chanId : String) : EngineMsg → List ActorMsg
  | EngineMsg.assistantStr c =>
      if c == "" then []
      else [mkStreamEvent name "stream-partial" (Payload.deltaPayload origId chanId c)]
  | EngineMsg.assistantArr bs =>
      (if blockTexts bs == "" then []
       else [mkStreamEvent name "stream-partial"
          (Payload.deltaPayload origId chanId (blockTexts bs))])
      ++ assistantToolEvents name origId chanId bs
  | EngineMsg.userMsg items => userItemEvents name origId chanId items
  | _ => []

/-- The observable outcome of ClaudeCodeActor.handleMessage: the returned
response (the signature allows null), the events emitted onto the bus in
order, the number of engine client invocations, and the adapter state. -/
structure ActorHandleOut where
  response : Option ActorMsg
  events : List ActorMsg
  engineCalls : Nat
  st : AdapterState
deriving Repr

/-- Does a payload carry a truthy text field, as tested by the actor guard. -/
def hasText : Payload → Bool
  | Payload.textPayload t _ _ => truthyStr t
  | _ => false

/-- ClaudeCodeActor.handleMessage: a missing or empty payload.text returns an
error response immediately without touching the engine; otherwise a
best-effort accepted notification is emitted, and the turn runs either in
plain mode (single blocking query) or in streaming mode (stream-started,
per-progress stream-partial events, then stream-completed and a
message-completed note on success or a fatal stream-error on failure);
in every case exactly one response is returned synchronously. -/
def handleMessage (client : Client) (env : Env) (busPresent : Bool) (name : String)
    (st : AdapterState) (msg : ActorMsg) : ActorHandleOut :=
  match msg.payload with
  | Payload.textPayload textOpt origIdOpt chanIdOpt =>
      let originalMessageId := origIdOpt.getD msg.id
      if !(truthyStr textOpt) then
        { response := some (createResponse name msg.fromName "error"
            (Payload.errorPayload "No text provided for Claude") (some msg.id))
        , events := [], engineCalls := 0, st := st }
      else
        let text := textOpt.getD ""
        let chanId := chanIdOpt.getD ""
        let acceptedEvents :=
          if busPresent && truthyStr chanIdOpt then
            [mkStreamEvent name "message-accepted"
              (Payload.notePayload originalMessageId chanId "[accepted]")]
          else []
        let streamingEnabled := st.config.streamingEnabled.getD true
        let canStream := streamingEnabled && busPresent
        if !canStream then
          let q := query client env st text
          match q.result with
          | Except.ok response =>
              { response := some (createResponse name msg.fromName "claude-response"
                  (Payload.responsePayload response q.st.currentSessionId) (some msg.id))
              , events := acceptedEvents, engineCalls := q.calls, st := q.st }
          | Except.error e =>
              { response := some (createResponse name msg.fromName "error"
                  (Payload.errorPayload e.message) (some msg.id))
              , events := acceptedEvents, engineCalls := q.calls, st := q.st }
        else
          let startedEvent := mkStreamEvent name "stream-started"
            (Payload.startedPayload originalMessageId chanId st.currentSessionId)
          let q := query client env st text
          let progEvents :=
            (q.progress.map (progressEvents name originalMessageId chanId)).flatten
          match q.result with
          | Except.ok response =>
              let completedEvent := mkStreamEvent name "stream-completed"
                (Payload.completedPayload originalMessageId chanId response
                  q.st.currentSessionId)
              let doneEvents :=
                if truthyStr chanIdOpt then
                  [mkStreamEvent name "message-completed"
                    (Payload.notePayload originalMessageId chanId "[done]")]
                else []
              { response := some (createResponse name msg.fromName "claude-response"
                  (Payload.responsePayload response q.st.currentSessionId) (some msg.id))
              , events := acceptedEvents ++ [startedEvent] ++ progEvents
                  ++ [completedEvent] ++ doneEvents
              , engineCalls := q.calls, st := q.st }
          | Except.error e =>
              let errorEvent := mkStreamEvent name "stream-error"
                (Payload.errorEvPayload originalMessageId chanId e.message true)
              { response := some (createResponse name msg.fromName "error"
                  (Payload.errorPayload e.message) (some msg.id))
              , events := acceptedEvents ++ [startedEvent] ++ progEvents ++ [errorEvent]
              , engineCalls := q.calls, st := q.st }
  | _ =>
      { response := some (createResponse name msg.fromName "error"
          (Payload.errorPayload "No text provided for Claude") (some msg.id))
      , events := [], engineCalls := 0, st := st }

/-- The head and tail window truncation as the specification words it:
content beyond the window keeps the first 25 lines plus the last 10
lines (refinement comparison definition, following the claim text). -/
def specHeadTailWindow (text : String) : String :=
  let lines := jsSplit text '\n'
  if lines.length ≤ 35 then text
  else jsJoin "\n" (lines.take 25 ++ lines.drop (lines.length - 10))

/-- A 40-line sample tool result. -/
def raw40 : String :=
  jsJoin "\n" ((List.range 40).map (fun i => "ln" ++ toString i))

/-- A 60-line sample tool result. -/
def raw60 : String :=
  jsJoin "\n" ((List.range 60).map (fun i => "ln" ++ toString i))

/-- A client that succeeds with a plain assistant answer. -/
def okClient : Client := fun _ _ _ =>
  { msgs := [EngineMsg.systemInit "sid-1", EngineMsg.assistantStr "Answer."]
  , thrown := none }

/-- A sample inbound message carrying text. -/
def msgWithText : ActorMsg :=
  { id := "m1", fromName := "user", toName := "assistant", type := "user-input"
  , payload := Payload.textPayload (some "hello") (some "m1") (some "chan-1") }

/-- A sample inbound message with no text field. -/
def msgNoText : ActorMsg :=
  { id := "m2", fromName := "user", toName := "assistant", type := "user-input"
  , payload := Payload.textPayload none none none }

/-! Embedding of the Discord adapter stream buffer engine
(onStreamStarted, onStreamPartial, scheduleFlush, flushNow,
onStreamCompleted, onStreamError and the fallback path of
handleActorResponse). -/

/-- getStreamingConfig: the streaming configuration with its defaults. -/
structure StreamCfg where
  enabled : Bool
  mode : UpdateMode
  interval : Nat
  showThinking : Bool
  showDone : Bool
  showAbort : Bool
deriving DecidableEq, Repr

/-- getStreamingConfig of the Discord adapter: defaults are enabled, append
mode, a 1000 ms flush interval, and all notices shown. -/
def getStreamingConfig (config : Config) : StreamCfg :=
  { enabled := config.streamingEnabled.getD true
  , mode := config.streamingUpdateMode.getD UpdateMode.append
  , interval := config.streamingIntervalMs.getD 1000
  , showThinking := config.streamingShowThinking.getD true
  , showDone := config.streamingShowDone.getD true
  , showAbort := config.streamingShowAbort.getD true }

/-- The per-turn stream state: text buffer, tool buffer, whether a flush
timer is pending, whether a thinking placeholder message exists, and the
display mode. -/
structure StreamTurnState where
  buffer : String
  toolBuffer : String
  timer : Bool
  thinking : Bool
  mode : UpdateMode
deriving DecidableEq, Repr

/-- An externalized output of the Discord adapter, in emission order. -/
inductive RenderOut where
  | flushEdit (content : String)
  | flushSend (content : String)
  | thinkingNote
  | finalSend (content : String)
  | doneMark
  | abortNote (message : String)
  | fallbackSend (content : String)
deriving DecidableEq, Repr

/-- The Discord adapter state owned by the stream buffer engine: the per-turn
state map (in insertion order), the completed-turn set, the scheduled
completed-set removals as (id, delay-ms) pairs, the externalized outputs
in order, and whether a current thread exists. -/
structure DiscordState where
  streamStates : List (String × StreamTurnState)
  completedStreamIds : List String
  cleanupDelays : List (String × Nat)
  outs : List RenderOut
  threadPresent : Bool
deriving DecidableEq, Repr

/-- Map.get of the per-turn state map. -/
def lookupState : List (String × StreamTurnState) → String → Option StreamTurnState
  | [], _ => none
  | (k, v) :: rest, id => if k == id then some v else lookupState rest id

/-- Map.set of the per-turn state map (replace in place, else append). -/
def setState : List (String × StreamTurnState) → String → StreamTurnState →
    List (String × StreamTurnState)
  | [], id, v => [(id, v)]
  | (k, w) :: rest, id, v =>
      if k == id then (k, v) :: rest else (k, w) :: setState rest id v

/-- Map.delete of the per-turn state map. -/
def removeState : List (String × StreamTurnState) → String →
    List (String × StreamTurnState)
  | [], _ => []
  | (k, w) :: rest, id =>
      if k == id then removeState rest id else (k, w) :: removeState rest id

/-- Set.add of the completed-turn set. -/
def addCompleted (ids : List String) (id : String) : List String :=
  if ids.contains id then ids else ids ++ [id]

/-- onStreamStarted: create a fresh turn state; in edit mode with thinking
enabled and a sendable thread, post the thinking placeholder first. -/
def onStreamStarted (cfg : StreamCfg) (id : String) (d : DiscordState) : DiscordState :=
  let base : StreamTurnState :=
    { buffer := "", toolBuffer := "", timer := false, thinking := false, mode := cfg.mode }
  if cfg.showThinking && (cfg.mode == UpdateMode.edit) && d.threadPresent then
    { d with outs := d.outs ++ [RenderOut.thinkingNote]
           , streamStates := setState d.streamStates id { base with thinking := true } }
  else
    { d with streamStates := setState d.streamStates id base }

/-- scheduleFlush: schedule a flush timer only when none is pending. -/
def scheduleFlush (id : String) (d : DiscordState) : DiscordState :=
  match lookupState d.streamStates id with
  | none => d
  | some st =>
      if st.timer then d
      else { d with streamStates := setState d.streamStates id { st with timer := true } }

/-- capContent: cap an externalized message at 1900 characters. -/
def capContent (s : String) : String :=
  if jsLength s > 1900 then jsTake s (1900 - 3) ++ "..." else s

/-- The concatenation a flush externalizes: tool buffer first, a newline
separator when both buffers are non-empty, then the text buffer, with
surrounding whitespace trimmed. -/
def flushContent (st : StreamTurnState) : String :=
  jsTrim (st.toolBuffer
    ++ (if st.toolBuffer != "" && st.buffer != "" then "\n" else "") ++ st.buffer)

/-- The render a flush produces: an edit of the thinking placeholder in edit
mode when one exists, else a fresh send, capped at 1900 characters. -/
def flushRender (st : StreamTurnState) : RenderOut :=
  if st.mode == UpdateMode.edit && st.thinking then
    RenderOut.flushEdit (capContent (flushContent st))
  else RenderOut.flushSend (capContent (flushContent st))

/-- flushNow: when the turn exists, a thread is present and the trimmed
concatenation is non-empty, externalize it and clear both buffers. -/
def flushNow (id : String) (d : DiscordState) : DiscordState :=
  match lookupState d.streamStates id with
  | none => d
  | some st =>
      if !d.threadPresent then d
      else
        let out := flushContent st
        if out == "" then d
        else
          { d with outs := d.outs ++ [flushRender st]
                 , streamStates := setState d.streamStates id
                     { st with buffer := "", toolBuffer := "" } }

/-- The firing of a scheduled flush timer: clear the timer handle, then run
flushNow.  A cancelled or unscheduled timer never fires, so the event is
a no-op when no timer is pending. -/
def timerFire (id : String) (d : DiscordState) : DiscordState :=
  match lookupState d.streamStates id with
  | none => d
  | some st =>
      if st.timer then
        flushNow id { d with streamStates := setState d.streamStates id { st with timer := false } }
      else d

/-- onStreamPartial: create the turn state implicitly when missing, append
the toolChunk newline-joined to the tool buffer and the textDelta to the
text buffer, then schedule a flush. -/
def onStreamPartial (cfg : StreamCfg) (id : String)
    (textDelta toolChunk : Option String) (d : DiscordState) : DiscordState :=
  let d1 :=
    match lookupState d.streamStates id with
    | none => onStreamStarted cfg id d
    | some _ => d
  match lookupState d1.streamStates id with
  | none => d1
  | some s =>
      let s1 :=
        if truthyStr toolChunk then
          { s with toolBuffer := s.toolBuffer
              ++ (if s.toolBuffer != "" then "\n" else "") ++ toolChunk.getD "" }
        else s
      let s2 :=
        if truthyStr textDelta then { s1 with buffer := s1.buffer ++ textDelta.getD "" }
        else s1
      scheduleFlush id { d1 with streamStates := setState d1.streamStates id s2 }

/-- sendLongMessage chunking: pack lines into messages of at most 1900
characters. -/
def sendLongChunks (content : String) : List String :=
  let lines := jsSplit content '\n'
  let packed := lines.foldl
    (fun (acc : List String × String) line =>
      if jsLength acc.2 + jsLength line + 1 > 1900 then (acc.1 ++ [acc.2], line)
      else (acc.1, acc.2 ++ (if acc.2 != "" then "\n" else "") ++ line))
    ([], "")
  if packed.2 != "" then packed.1 ++ [packed.2] else packed.1

/-- The final-output stage of onStreamCompleted: in edit mode send the full
final text in long-message chunks (the incremental chunks were already
sent in append mode), then the done mark when enabled. -/
def finalStage (cfg : StreamCfg) (st0 : Option StreamTurnState) (fullText : String)
    (d2 : DiscordState) : DiscordState :=
  let d3 :=
    if cfg.mode == UpdateMode.edit then
      match st0 with
      | some st =>
          if st.thinking then
            { d2 with outs := d2.outs ++ (sendLongChunks fullText).map RenderOut.finalSend }
          else if d2.threadPresent then
            { d2 with outs := d2.outs ++ (sendLongChunks fullText).map RenderOut.finalSend }
          else d2
      | none =>
          if d2.threadPresent then
            { d2 with outs := d2.outs ++ (sendLongChunks fullText).map RenderOut.finalSend }
          else d2
    else d2
  if cfg.showDone && d3.threadPresent then
    { d3 with outs := d3.outs ++ [RenderOut.doneMark] }
  else d3

/-- onStreamCompleted: cancel any pending flush timer, perform a final flush
of residual buffered content, send the full final text in edit mode (and
the done mark when enabled), then delete the turn state, add the id to
the completed-set and schedule its removal after 60000 ms. -/
def onStreamCompleted (cfg : StreamCfg) (id : String) (fullText : String)
    (d : DiscordState) : DiscordState :=
  let st0 := lookupState d.streamStates id
  let d1 :=
    match st0 with
    | some st =>
        if st.timer then
          { d with streamStates := setState d.streamStates id { st with timer := false } }
        else d
    | none => d
  let d2 := flushNow id d1
  let d4 := finalStage cfg st0 fullText d2
  { d4 with streamStates := removeState d4.streamStates id
          , completedStreamIds := addCompleted d4.completedStreamIds id
          , cleanupDelays := d4.cleanupDelays ++ [(id, 60000)] }

/-- onStreamError: cancel any pending flush timer, discard the buffers, send
the abort notice when enabled, then delete the turn state, add the id to
the completed-set and schedule its removal after 60000 ms. -/
def onStreamError (cfg : StreamCfg) (id : String) (message : String)
    (d : DiscordState) : DiscordState :=
  let st0 := lookupState d.streamStates id
  let d1 :=
    match st0 with
    | some st =>
        if st.timer then
          { d with streamStates := setState d.streamStates id { st with timer := false } }
        else d
    | none => d
  let d2 :=
    if cfg.showAbort && d1.threadPresent then
      { d1 with outs := d1.outs ++ [RenderOut.abortNote message] }
    else d1
  { d2 with streamStates := removeState d2.streamStates id
          , completedStreamIds := addCompleted d2.completedStreamIds id
          , cleanupDelays := d2.cleanupDelays ++ [(id, 60000)] }

/-- The body of the scheduled completed-set cleanup: remove the id. -/
def cleanupFire (id : String) (d : DiscordState) : DiscordState :=
  { d with completedStreamIds := d.completedStreamIds.erase id }

/-- The final-send portion of handleActorResponse: a truthy response text is
sent in long-message chunks unless streaming is enabled and the turn id
has a live stream state or sits in the completed-set. -/
def handleActorResponse (config : Config) (id : String) (text : Option String)
    (d : DiscordState) : DiscordState :=
  match text with
  | some t =>
      if t == "" then d
      else
        let streamingEnabled := config.streamingEnabled.getD true
        if streamingEnabled
            && ((lookupState d.streamStates id).isSome
                || d.completedStreamIds.contains id) then d
        else { d with outs := d.outs ++ (sendLongChunks t).map RenderOut.fallbackSend }
  | none => d

/-- A per-turn state holding buffered text with trailing whitespace and a
pending flush timer. -/
def stTrailing : StreamTurnState :=
  { buffer := "hi ", toolBuffer := "", timer := true, thinking := false
  , mode := UpdateMode.append }

/-- A Discord state with one pending turn holding the trailing-space buffer. -/
def dTrailing : DiscordState :=
  { streamStates := [("m1", stTrailing)], completedStreamIds := []
  , cleanupDelays := [], outs := [], threadPresent := true }

/-- An empty Discord state with a thread present. -/
def dEmpty : DiscordState :=
  { streamStates := [], completedStreamIds := [], cleanupDelays := []
  , outs := [], threadPresent := true }

/-! Embedding of the SimpleMessageBus (send and emit). -/

/-- An actor handler as the bus sees it: handleMessage may return a response,
null, or throw. -/
def ActorHandler : Type :=
  ActorMsg → Except JsError (Option ActorMsg)

/-- A bus listener: a side-channel observer that may throw. -/
def Listener : Type :=
  ActorMsg → Except JsError Unit

/-- The SimpleMessageBus state: the actor registry in registration order and
the listener registry in subscription order. -/
structure SimpleMessageBus where
  actors : List (String × ActorHandler)
  listeners : List Listener

/-- Map.get of the actor registry. -/
def lookupActor : List (String × ActorHandler) → String → Option ActorHandler
  | [], _ => none
  | (k, h) :: rest, name => if k == name then some h else lookupActor rest name

/-- SimpleMessageBus.send: look up the target actor by the to field; when it
is absent return null without throwing and without touching the registry,
otherwise invoke its handler and return its result (a handler exception
is not caught by the bus). -/
def send (bus : SimpleMessageBus) (msg : ActorMsg) :
    Except JsError (Option ActorMsg) × SimpleMessageBus :=
  match lookupActor bus.actors msg.toName with
  | none => (Except.ok none, bus)
  | some handler => (handler msg, bus)

/-- The observable trace of one emit call: the indices of the listeners that
were invoked in order, the listener errors that were caught and logged,
and the actors whose handleMessage was invoked (none, by construction of
emit, which delivers to listeners only). -/
structure EmitTrace where
  invoked : List Nat
  loggedErrors : List JsError
  handlerCalls : List String
deriving Repr

/-- The listener loop of emit: every listener is called inside a try/catch
that logs its error and continues with the next listener. -/
def emitGo (msg : ActorMsg) : Nat → List Listener → EmitTrace
  | _, [] => { invoked := [], loggedErrors := [], handlerCalls := [] }
  | i, l :: rest =>
      let tail := emitGo msg (i + 1) rest
      match l msg with
      | Except.ok _ => { tail with invoked := i :: tail.invoked }
      | Except.error e =>
          { invoked := i :: tail.invoked
          , loggedErrors := e :: tail.loggedErrors
          , handlerCalls := tail.handlerCalls }

/-- SimpleMessageBus.emit: an early return when no listener is registered,
otherwise the per-listener try/catch loop; emit itself never propagates a
listener exception (the Except layer of its result stays ok). -/
def emit (bus : SimpleMessageBus) (msg : ActorMsg) : Except JsError EmitTrace :=
  if bus.listeners.length == 0 then
    Except.ok { invoked := [], loggedErrors := [], handlerCalls := [] }
  else Except.ok (emitGo msg 0 bus.listeners)

/-- A bus with no registered actors and no listeners. -/
def busEmpty : SimpleMessageBus :=
  { actors := [], listeners := [] }

/-- A message addressed to an unregistered actor name. -/
def ghostMsg : ActorMsg :=
  { id := "g1", fromName := "discord", toName := "ghost", type := "discord-message"
  , payload := Payload.textPayload (some "hello") none none }

/-! Auxiliary lemmas about the adapter model. -/

theorem processMsg_config (acc : LoopAcc) (m : EngineMsg) :
    (processMsg acc m).st.config = acc.st.config := by
  cases m <;> rfl

theorem foldl_processMsg_config (msgs : List EngineMsg) :
    ∀ acc : LoopAcc, (msgs.foldl processMsg acc).st.config = acc.st.config := by
  induction msgs with
  | nil => intro acc; rfl
  | cons m ms ih => intro acc; rw [List.foldl_cons, ih, processMsg_config]

theorem queryAttempt_config (client : Client) (idx : Nat) (env : Env)
    (st : AdapterState) (prompt : String) :
    (queryAttempt client idx env st prompt).st.config = st.config := by
  simp only [queryAttempt, runMsgs]
  cases h : (client idx (buildOptions st) (buildActualPrompt env st prompt)).thrown <;>
    simp [h, foldl_processMsg_config]

theorem buildDiagnostics_config (env : Env) (st : AdapterState) (rawMsg : String) :
    (buildDiagnostics env st rawMsg).2.config = st.config := by
  unfold buildDiagnostics
  split <;> rfl

theorem queryRetry_config (client : Client) (env : Env) (st : AdapterState)
    (prompt : String) :
    (queryRetry client env st prompt).st.config = st.config := by
  simp only [queryRetry]
  cases hr : (queryAttempt client 1 env st prompt).result with
  | ok t => simp only [hr]; exact queryAttempt_config client 1 env st prompt
  | error e =>
      simp only [hr]
      split
      · exact queryAttempt_config client 1 env st prompt
      · rw [buildDiagnostics_config, queryAttempt_config]

theorem queryRetry_calls (client : Client) (env : Env) (st : AdapterState)
    (prompt : String) :
    (queryRetry client env st prompt).calls = 1 := by
  simp only [queryRetry]
  cases hr : (queryAttempt client 1 env st prompt).result with
  | ok t => simp only [hr]
  | error e => simp only [hr]; split <;> rfl

theorem queryAttempt_result_err (client : Client) (idx : Nat) (env : Env)
    (st : AdapterState) (prompt : String) (e : JsError)
    (h : (client idx (buildOptions st) (buildActualPrompt env st prompt)).thrown = some e) :
    (queryAttempt client idx env st prompt).result = Except.error e := by
  simp only [queryAttempt]
  rw [h]

theorem queryAttempt_result_ok (client : Client) (idx : Nat) (env : Env)
    (st : AdapterState) (prompt : String)
    (h : (client idx (buildOptions st) (buildActualPrompt env st prompt)).thrown = none) :
    ∃ t, (queryAttempt client idx env st prompt).result = Except.ok t := by
  simp only [queryAttempt]
  rw [h]
  exact ⟨_, rfl⟩

/-! Claim theorems. -/

/-- C1: for every query call on the Claude Code adapter, the engine client
is invoked at most twice; a second invocation happens only when the first
raised a non-abort exception whose message matches a session-loss phrase
while config.sessionId or config.continueSession was configured; a retry
is never followed by another invocation, and a non-matching exception
propagates after exactly one invocation. -/
theorem claude_query_retries_at_most_once (client : Client) (env : Env)
    (st : AdapterState) (prompt : String) :
    (query client env st prompt).calls ≤ 2
    ∧ ((query client env st prompt).calls = 2 →
        ∃ e : JsError,
          (client 0 (buildOptions st) (buildActualPrompt env st prompt)).thrown = some e
          ∧ (e.name == "AbortError") = false
          ∧ isSessionNotFound e.message = true
          ∧ (truthyStr st.config.sessionId || truthyFlag st.config.continueSession) = true)
    ∧ (∀ e : JsError,
        (client 0 (buildOptions st) (buildActualPrompt env st prompt)).thrown = some e →
        (e.name == "AbortError") = false →
        isSessionNotFound e.message = false →
        (query client env st prompt).calls = 1
          ∧ ∃ e2 : JsError, (query client env st prompt).result = Except.error e2) := by
  have hcfg := queryAttempt_config client 0 env st prompt
  cases hth : (client 0 (buildOptions st) (buildActualPrompt env st prompt)).thrown with
  | none =>
      obtain ⟨t, ht⟩ := queryAttempt_result_ok client 0 env st prompt hth
      simp only [query, ht]
      refine ⟨by simp, by simp, ?_⟩
      intro e he
      exact absurd he (by simp)
  | some e =>
      have ht := queryAttempt_result_err client 0 env st prompt e hth
      simp only [query, ht, hcfg]
      cases hab : e.name == "AbortError" with
      | true =>
          rw [if_pos rfl]
          refine ⟨by simp, by simp, ?_⟩
          intro e2 he2 hab2 _hs
          injection he2 with hee
          subst hee
          cases hab.symm.trans hab2
      | false =>
          rw [if_neg (by simp)]
          cases hsess : isSessionNotFound e.message
              && (truthyStr st.config.sessionId || truthyFlag st.config.continueSession) with
          | true =>
              rw [if_pos rfl]
              have hs12 : isSessionNotFound e.message = true
                  ∧ (truthyStr st.config.sessionId || truthyFlag st.config.continueSession) = true := by
                simpa [Bool.and_eq_true] using hsess
              obtain ⟨hs1, hs2⟩ := hs12
              cases hr : (queryRetry client env
                  (retryState (queryAttempt client 0 env st prompt).st) prompt).result with
              | ok t =>
                  simp only [hr, queryRetry_calls]
                  refine ⟨by simp, fun _ => ⟨e, rfl, hab, hs1, hs2⟩, ?_⟩
                  intro e2 he2 _hab2 hs3
                  injection he2 with hee
                  subst hee
                  cases hs1.symm.trans hs3
              | error e3 =>
                  simp only [hr, queryRetry_calls]
                  refine ⟨by simp, fun _ => ⟨e, rfl, hab, hs1, hs2⟩, ?_⟩
                  intro e2 he2 _hab2 hs3
                  injection he2 with hee
                  subst hee
                  cases hs1.symm.trans hs3
          | false =>
              rw [if_neg (by simp)]
              refine ⟨by simp, by simp, ?_⟩
              intro e2 he2 _hab2 _hs3
              exact ⟨rfl, _, rfl⟩

/-- Witness for C1: a non-session network error propagates after exactly one
client invocation. -/
theorem claude_query_retries_at_most_once_witness :
    (query netErrClient envSample (mkAdapter cfgBoth) "hi").calls = 1
    ∧ ∃ e2 : JsError,
        (query netErrClient envSample (mkAdapter cfgBoth) "hi").result = Except.error e2 :=
  (claude_query_retries_at_most_once netErrClient envSample (mkAdapter cfgBoth) "hi").2.2
    { name := "Error", message := "Network error: Connection refused" }
    rfl (by decide) (by decide)

/-- Lemma: the config of the retry state keeps every field except the two
cleared session fields. -/
theorem retryState_config (a : AdapterState) :
    (retryState a).config
      = { a.config with sessionId := none, continueSession := some false } := rfl

/-- Lemma: restoreConfig overwrites exactly the two session fields. -/
theorem restoreConfig_config (s : AdapterState) (c : Config) :
    (restoreConfig s c).config
      = { s.config with sessionId := c.sessionId
                      , continueSession := c.continueSession } := rfl

/-- C8: every query leaves the caller-visible configuration record exactly
as it found it; in particular the session-loss retry path restores
config.sessionId and config.continueSession regardless of whether the
retry succeeds or fails, and no other configuration field is modified. -/
theorem query_restores_config (client : Client) (env : Env) (st : AdapterState)
    (prompt : String) :
    (query client env st prompt).st.config = st.config := by
  have hcfg := queryAttempt_config client 0 env st prompt
  cases hth : (client 0 (buildOptions st) (buildActualPrompt env st prompt)).thrown with
  | none =>
      obtain ⟨t, ht⟩ := queryAttempt_result_ok client 0 env st prompt hth
      simp only [query, ht]
      exact hcfg
  | some e =>
      have ht := queryAttempt_result_err client 0 env st prompt e hth
      simp only [query, ht, hcfg]
      cases hab : e.name == "AbortError" with
      | true => rw [if_pos rfl]; exact hcfg
      | false =>
          rw [if_neg (by simp)]
          cases hsess : isSessionNotFound e.message
              && (truthyStr st.config.sessionId || truthyFlag st.config.continueSession) with
          | true =>
              rw [if_pos rfl]
              cases hr : (queryRetry client env
                  (retryState (queryAttempt client 0 env st prompt).st) prompt).result with
              | ok t =>
                  simp only [hr]
                  rw [restoreConfig_config, queryRetry_config, retryState_config, hcfg]
              | error e3 =>
                  simp only [hr]
                  rw [buildDiagnostics_config, restoreConfig_config, queryRetry_config,
                    retryState_config, hcfg]
          | false =>
              rw [if_neg (by simp)]
              rw [buildDiagnostics_config]
              exact hcfg

/-- C3 counterexample: the claim that the built call options never contain
both a resume hint and a continue hint fails on a reachable state: after
constructing the adapter with a config carrying both sessionId and
continueSession and then calling resetSession, the next query builds
options containing both hints. -/
theorem session_options_never_both_counterexample :
    Reachable (resetSession (mkAdapter cfgBoth))
    ∧ (buildOptions (resetSession (mkAdapter cfgBoth))).continueOpt = true
    ∧ (buildOptions (resetSession (mkAdapter cfgBoth))).resumeOpt = some "s" :=
  ⟨Reachable.reset _ (Reachable.constructed cfgBoth), by decide, by decide⟩

/-- C3 amended: for every reachable adapter state, the built call options
contain both a resume hint and a continue hint only when the
configuration simultaneously carries a truthy sessionId and a truthy
continueSession while the state is in first-query mode (which is
reachable only through resetSession or a failed retry). -/
theorem session_options_both_only_when_first_query_with_both (st : AdapterState)
    (_h : Reachable st)
    (hcont : (buildOptions st).continueOpt = true)
    (hres : (buildOptions st).resumeOpt ≠ none) :
    truthyStr st.config.sessionId = true ∧ truthyFlag st.config.continueSession = true
      ∧ st.isFirstQuery = true := by
  unfold buildOptions at hcont hres
  by_cases hif : (truthyStr st.config.sessionId && st.isFirstQuery) = true
  · have h12 : truthyStr st.config.sessionId = true ∧ st.isFirstQuery = true := by
      simpa [Bool.and_eq_true] using hif
    obtain ⟨h1, h2⟩ := h12
    refine ⟨h1, ?_, h2⟩
    simpa [h2] using hcont
  · exfalso
    apply hres
    simp only [if_neg hif]

/-- Witness for the amended C3 theorem at the reachable conflicting state. -/
theorem session_options_both_witness :
    truthyStr (resetSession (mkAdapter cfgBoth)).config.sessionId = true
    ∧ truthyFlag (resetSession (mkAdapter cfgBoth)).config.continueSession = true
    ∧ (resetSession (mkAdapter cfgBoth)).isFirstQuery = true :=
  session_options_both_only_when_first_query_with_both _
    (Reachable.reset _ (Reachable.constructed cfgBoth)) (by decide) (by decide)

/-- C2 counterexample: stopping the adapter cannot abort an in-flight engine
call through the default client, because createClaudeClient does not
forward the abort controller to the SDK call: at a concrete call whose
controller is already aborted, the SDK arguments carry no signal. -/
theorem stop_aborts_inflight_counterexample :
    (createClaudeClient
      { prompt := "hi", options := buildOptions (mkAdapter cfgBoth)
      , abortController := some { aborted := true } }).signal = none
    ∧ (createClaudeClient
      { prompt := "hi", options := buildOptions (mkAdapter cfgBoth)
      , abortController := some { aborted := true } }).signal
        ≠ some { aborted := true } := by decide

/-- C2 amended: stop aborts the adapter-side AbortController, and an
abort-typed exception raised by the client is rethrown as Query was
aborted after exactly one invocation (never retried, and distinguished
from session-loss errors); however the default client built by
createClaudeClient never forwards any abort signal to the SDK call, so
stop does not abort an in-flight engine call of the default client. -/
theorem stop_abort_amended :
    (∀ args : ClientQueryArgs, (createClaudeClient args).signal = none)
    ∧ (∀ c : AbortController, stopAdapter (some c) = some { aborted := true })
    ∧ (∀ (client : Client) (env : Env) (st : AdapterState) (prompt : String) (e : JsError),
        (client 0 (buildOptions st) (buildActualPrompt env st prompt)).thrown = some e →
        e.name = "AbortError" →
        (query client env st prompt).result
            = Except.error { name := "Error", message := "Query was aborted" }
          ∧ (query client env st prompt).calls = 1) := by
  refine ⟨fun args => rfl, fun c => rfl, ?_⟩
  intro client env st prompt e hth hname
  have ht := queryAttempt_result_err client 0 env st prompt e hth
  simp only [query, ht]
  rw [if_pos (by simp [hname])]
  exact ⟨rfl, rfl⟩

/-- Witness for the amended C2 theorem at a concrete aborting client. -/
theorem stop_abort_amended_witness :
    (query abortErrClient envSample (mkAdapter cfgBoth) "hi").result
        = Except.error { name := "Error", message := "Query was aborted" }
    ∧ (query abortErrClient envSample (mkAdapter cfgBoth) "hi").calls = 1 :=
  stop_abort_amended.2.2 abortErrClient envSample (mkAdapter cfgBoth) "hi"
    { name := "AbortError", message := "The operation was aborted" } rfl rfl

/-- Helper for C4: every tool_result item of a user message yields a
stream-partial event embedding its line-truncated chunk. -/
theorem mem_userItemEvents (name origId chanId : String) (tid : Option String)
    (isErr : Bool) (c : ToolContent) :
    ∀ items : List UserItem, UserItem.toolResult tid isErr c ∈ items →
      mkStreamEvent name "stream-partial"
          (Payload.toolPayload origId chanId (toolResultChunk tid isErr (contentRaw c)))
        ∈ userItemEvents name origId chanId items := by
  intro items h
  induction items with
  | nil => cases h
  | cons it its ih =>
      rcases List.mem_cons.mp h with h1 | h2
      · rw [← h1]
        simp [userItemEvents]
      · cases it with
        | toolResult a b d =>
            exact List.mem_cons_of_mem _ (ih h2)
        | otherItem =>
            simpa [userItemEvents] using ih h2

/-- C4 counterexample: the claim that every multi-line tool-result payload is
truncated to a head-and-tail window of lines (first 25 plus last 10) fails:
a 40-line tool result is embedded into the stream-partial chunk unchanged,
while the claimed window truncation would have shortened it. -/
theorem tool_result_window_counterexample :
    toolResultChunk (some "t1") false raw40
      = "✅ **ツール実行結果** (ID: t1):\n```\n" ++ raw40 ++ "\n```\n"
    ∧ truncateLines raw40 50 = raw40
    ∧ (jsSplit raw40 '\n').length = 40
    ∧ specHeadTailWindow raw40 ≠ raw40 := by
  refine ⟨by decide, by decide, by decide, by decide⟩

/-- C4 amended: a tool-result payload is embedded into a stream-partial
event through truncateLines with a 50-line threshold: content of at most
50 lines is embedded unchanged; content of more than 50 lines is reduced
to its first 25 lines, a lines-omitted marker, and its last 10 lines (36
joined segments), so the embedded line content is bounded; and every
tool_result item of a progress message is embedded through exactly this
truncation. -/
theorem tool_result_truncation_amended :
    (∀ raw : String, (jsSplit raw '\n').length ≤ 50 → truncateLines raw 50 = raw)
    ∧ (∀ raw : String, 50 < (jsSplit raw '\n').length →
        truncateLines raw 50
          = jsJoin "\n" ((jsSplit raw '\n').take 25
              ++ ["\n... " ++ toString ((jsSplit raw '\n').length - 25 - 10)
                    ++ " lines omitted ...\n"]
              ++ (jsSplit raw '\n').drop ((jsSplit raw '\n').length - 10))
          ∧ ((jsSplit raw '\n').take 25
              ++ ["\n... " ++ toString ((jsSplit raw '\n').length - 25 - 10)
                    ++ " lines omitted ...\n"]
              ++ (jsSplit raw '\n').drop ((jsSplit raw '\n').length - 10)).length = 36)
    ∧ (∀ (name origId chanId : String) (items : List UserItem)
        (tid : Option String) (isErr : Bool) (c : ToolContent),
        UserItem.toolResult tid isErr c ∈ items →
        mkStreamEvent name "stream-partial"
            (Payload.toolPayload origId chanId (toolResultChunk tid isErr (contentRaw c)))
          ∈ progressEvents name origId chanId (EngineMsg.userMsg items)) := by
  refine ⟨?_, ?_, ?_⟩
  · intro raw h
    simp only [truncateLines]
    rw [if_pos h]
  · intro raw h
    constructor
    · simp only [truncateLines]
      rw [if_neg (by omega)]
    · have h25 : ((jsSplit raw '\n').take 25).length = 25 := by
        rw [List.length_take]
        omega
      have h10 : ((jsSplit raw '\n').drop ((jsSplit raw '\n').length - 10)).length = 10 := by
        rw [List.length_drop]
        omega
      simp [h25, h10]
  · intro name origId chanId items tid isErr c h
    simpa [progressEvents] using mem_userItemEvents name origId chanId tid isErr c items h

/-- Witness for the amended C4 theorem: a 40-line result passes unchanged, a
60-line result is reduced to 36 segments, and a concrete tool result is
embedded through the truncation. -/
theorem tool_result_truncation_amended_witness :
    truncateLines raw40 50 = raw40
    ∧ ((jsSplit raw60 '\n').take 25
        ++ ["\n... " ++ toString ((jsSplit raw60 '\n').length - 25 - 10)
              ++ " lines omitted ...\n"]
        ++ (jsSplit raw60 '\n').drop ((jsSplit raw60 '\n').length - 10)).length = 36
    ∧ mkStreamEvent "claude-code" "stream-partial"
        (Payload.toolPayload "m1" "chan-1"
          (toolResultChunk (some "t1") false (contentRaw (ToolContent.str "out"))))
      ∈ progressEvents "claude-code" "m1" "chan-1"
          (EngineMsg.userMsg [UserItem.toolResult (some "t1") false (ToolContent.str "out")]) :=
  ⟨tool_result_truncation_amended.1 raw40 (by decide),
   (tool_result_truncation_amended.2.1 raw60 (by decide)).2,
   tool_result_truncation_amended.2.2 "claude-code" "m1" "chan-1" _ (some "t1") false
     (ToolContent.str "out") (by decide)⟩

/-- C5: handleMessage always returns exactly one response, which is either a
claude-response carrying the full query text or an error response, never
null; a missing or empty payload.text yields an error response without
any engine invocation; and the synchronous return value is determined by
the query result alone, with streaming events only a side channel. -/
theorem actor_single_response (client : Client) (env : Env) (busPresent : Bool)
    (name : String) (st : AdapterState) (msg : ActorMsg) :
    (handleMessage client env busPresent name st msg).response ≠ none
    ∧ (∀ r : ActorMsg, (handleMessage client env busPresent name st msg).response = some r →
        r.type = "claude-response" ∨ r.type = "error")
    ∧ (hasText msg.payload = false →
        (handleMessage client env busPresent name st msg).engineCalls = 0
        ∧ ∃ r : ActorMsg, (handleMessage client env busPresent name st msg).response = some r
            ∧ r.type = "error")
    ∧ (∀ textOpt origIdOpt chanIdOpt : Option String,
        msg.payload = Payload.textPayload textOpt origIdOpt chanIdOpt →
        truthyStr textOpt = true →
        (∀ t : String, (query client env st (textOpt.getD "")).result = Except.ok t →
          (handleMessage client env busPresent name st msg).response
            = some (createResponse name msg.fromName "claude-response"
                (Payload.responsePayload t
                  (query client env st (textOpt.getD "")).st.currentSessionId)
                (some msg.id)))
        ∧ (∀ e : JsError, (query client env st (textOpt.getD "")).result = Except.error e →
          (handleMessage client env busPresent name st msg).response
            = some (createResponse name msg.fromName "error"
                (Payload.errorPayload e.message) (some msg.id)))) := by
  cases hp : msg.payload
  case textPayload textOpt origIdOpt chanIdOpt =>
      simp only [handleMessage, hp, hasText]
      cases htx : truthyStr textOpt with
      | false =>
          rw [if_pos (by simp)]
          refine ⟨by simp, ?_, ?_, ?_⟩
          · intro r hr
            injection hr with h1
            rw [← h1]
            right
            rfl
          · intro _
            exact ⟨rfl, _, rfl, rfl⟩
          · intro t o c hpe htr
            injection hpe with h1 h2 h3
            subst h1
            cases htx.symm.trans htr
      | true =>
          rw [if_neg (by simp)]
          cases hcs : st.config.streamingEnabled.getD true && busPresent with
          | false =>
              rw [if_pos (by simp)]
              cases hq : (query client env st (textOpt.getD "")).result with
              | ok t =>
                  simp only [hq]
                  refine ⟨by simp, ?_, ?_, ?_⟩
                  · intro r hr
                    injection hr with h1
                    rw [← h1]
                    left
                    rfl
                  · intro h
                    cases h
                  · intro t2 o2 c2 hpe _
                    injection hpe with h1 h2 h3
                    subst h1; subst h2; subst h3
                    refine ⟨?_, ?_⟩
                    · intro t3 hq3
                      rw [hq] at hq3
                      injection hq3 with h4
                      subst h4
                      rfl
                    · intro e3 hq3
                      rw [hq] at hq3
                      cases hq3
              | error e =>
                  simp only [hq]
                  refine ⟨by simp, ?_, ?_, ?_⟩
                  · intro r hr
                    injection hr with h1
                    rw [← h1]
                    right
                    rfl
                  · intro h
                    cases h
                  · intro t2 o2 c2 hpe _
                    injection hpe with h1 h2 h3
                    subst h1; subst h2; subst h3
                    refine ⟨?_, ?_⟩
                    · intro t3 hq3
                      rw [hq] at hq3
                      cases hq3
                    · intro e3 hq3
                      rw [hq] at hq3
                      injection hq3 with h4
                      subst h4
                      rfl
          | true =>
              rw [if_neg (by simp)]
              cases hq : (query client env st (textOpt.getD "")).result with
              | ok t =>
                  simp only [hq]
                  refine ⟨by simp, ?_, ?_, ?_⟩
                  · intro r hr
                    injection hr with h1
                    rw [← h1]
                    left
                    rfl
                  · intro h
                    cases h
                  · intro t2 o2 c2 hpe _
                    injection hpe with h1 h2 h3
                    subst h1; subst h2; subst h3
                    refine ⟨?_, ?_⟩
                    · intro t3 hq3
                      rw [hq] at hq3
                      injection hq3 with h4
                      subst h4
                      rfl
                    · intro e3 hq3
                      rw [hq] at hq3
                      cases hq3
              | error e =>
                  simp only [hq]
                  refine ⟨by simp, ?_, ?_, ?_⟩
                  · intro r hr
                    injection hr with h1
                    rw [← h1]
                    right
                    rfl
                  · intro h
                    cases h
                  · intro t2 o2 c2 hpe _
                    injection hpe with h1 h2 h3
                    subst h1; subst h2; subst h3
                    refine ⟨?_, ?_⟩
                    · intro t3 hq3
                      rw [hq] at hq3
                      cases hq3
                    · intro e3 hq3
                      rw [hq] at hq3
                      injection hq3 with h4
                      subst h4
                      rfl
  all_goals {
    simp only [handleMessage, hp, hasText]
    refine ⟨by simp, ?_, ?_, ?_⟩
    · intro r hr
      injection hr with h1
      rw [← h1]
      right
      rfl
    · intro _
      exact ⟨trivial, _, rfl, rfl⟩
    · intro t o c hpe _
      cases hpe }

/-- Witness for C5: a concrete successful streaming turn returns exactly the
claude-response, and a missing text returns an error without an engine
call. -/
theorem actor_single_response_witness :
    (handleMessage okClient envSample true "assistant" (mkAdapter cfgBoth) msgWithText).response
      = some (createResponse "assistant" "user" "claude-response"
          (Payload.responsePayload "Answer." (some "sid-1")) (some "m1"))
    ∧ (handleMessage okClient envSample true "assistant" (mkAdapter cfgBoth)
        msgNoText).engineCalls = 0 := by
  constructor
  · exact ((actor_single_response okClient envSample true "assistant" (mkAdapter cfgBoth)
      msgWithText).2.2.2 (some "hello") (some "m1") (some "chan-1") rfl (by decide)).1
      "Answer." rfl
  · exact ((actor_single_response okClient envSample true "assistant" (mkAdapter cfgBoth)
      msgNoText).2.2.1 (by decide)).1

/-! Lemmas about the stream state map and the stream buffer engine. -/

theorem lookupState_setState (m : List (String × StreamTurnState)) (id : String)
    (v : StreamTurnState) : lookupState (setState m id v) id = some v := by
  induction m with
  | nil => simp [setState, lookupState]
  | cons p rest ih =>
      obtain ⟨k, w⟩ := p
      by_cases h : (k == id) = true
      · simp [setState, lookupState, h]
      · simp only [setState, h, if_false, Bool.false_eq_true]
        simp [lookupState, h, ih]

theorem lookupState_removeState (m : List (String × StreamTurnState)) (id : String) :
    lookupState (removeState m id) id = none := by
  induction m with
  | nil => rfl
  | cons p rest ih =>
      obtain ⟨k, w⟩ := p
      by_cases h : (k == id) = true
      · simp [removeState, h, ih]
      · simp only [removeState, h, if_false, Bool.false_eq_true]
        simp [lookupState, h, ih]

theorem contains_addCompleted (ids : List String) (id : String) :
    (addCompleted ids id).contains id = true := by
  unfold addCompleted
  split
  · assumption
  · induction ids with
    | nil => simp
    | cons a rest ih => simp_all [List.contains_cons]

theorem flushContent_timer (st : StreamTurnState) (b : Bool) :
    flushContent { st with timer := b } = flushContent st := rfl

theorem flushRender_timer (st : StreamTurnState) (b : Bool) :
    flushRender { st with timer := b } = flushRender st := rfl

/-- Helper: the fallback send is suppressed whenever streaming is enabled and
the turn id sits in the completed-set. -/
theorem handleActorResponse_suppressed (config : Config) (id : String) (t : String)
    (d : DiscordState) (hen : config.streamingEnabled.getD true = true)
    (hc : d.completedStreamIds.contains id = true) :
    handleActorResponse config id (some t) d = d := by
  have hm : id ∈ d.completedStreamIds := by simpa using hc
  simp [handleActorResponse, hen, hm]

/-- Helper: a flush on a live turn with a thread and non-empty trimmed
content externalizes exactly one render and clears both buffers. -/
theorem flushNow_spec (id : String) (d : DiscordState) (st : StreamTurnState)
    (hs : lookupState d.streamStates id = some st) (hth : d.threadPresent = true)
    (hne : (flushContent st == "") = false) :
    (flushNow id d).outs = d.outs ++ [flushRender st]
    ∧ lookupState (flushNow id d).streamStates id
        = some { st with buffer := "", toolBuffer := "" } := by
  simp only [flushNow, hs, hth]
  rw [if_neg (by simp)]
  rw [if_neg (by simp [hne])]
  exact ⟨rfl, lookupState_setState _ _ _⟩

/-- Helper: the final-output stage only appends renders. -/
theorem finalStage_prefix (cfg : StreamCfg) (st0 : Option StreamTurnState)
    (fullText : String) (d2 : DiscordState) :
    d2.outs <+: (finalStage cfg st0 fullText d2).outs := by
  have hdone : ∀ x : DiscordState, d2.outs <+: x.outs →
      d2.outs <+: (if cfg.showDone && x.threadPresent then
          { x with outs := x.outs ++ [RenderOut.doneMark] } else x).outs := by
    intro x hx
    split
    · exact hx.trans (List.prefix_append _ _)
    · exact hx
  cases st0 with
  | some st =>
      simp only [finalStage]
      apply hdone
      by_cases hm : (cfg.mode == UpdateMode.edit) = true
      · rw [if_pos hm]
        by_cases h1 : st.thinking = true
        · rw [if_pos h1]
          exact List.prefix_append _ _
        · rw [if_neg h1]
          by_cases h2 : d2.threadPresent = true
          · rw [if_pos h2]
            exact List.prefix_append _ _
          · rw [if_neg h2]
      · rw [if_neg hm]
  | none =>
      simp only [finalStage]
      apply hdone
      by_cases hm : (cfg.mode == UpdateMode.edit) = true
      · rw [if_pos hm]
        by_cases h2 : d2.threadPresent = true
        · rw [if_pos h2]
          exact List.prefix_append _ _
        · rw [if_neg h2]
      · rw [if_neg hm]

/-- C6: on stream-completed the pending flush timer is cancelled, residual
buffered content is flushed before any final output, the turn state is
destroyed, the id enters the completed-set with a removal scheduled
60000 ms later, a late timer fire is a no-op, and a late non-streaming
fallback for the id is suppressed; stream-error likewise destroys the
state and enters the id into the completed-set with the same
suppression. -/
theorem stream_completed_finalizes (config : Config) (id : String)
    (fullText errMsg : String) (d : DiscordState) :
    lookupState (onStreamCompleted (getStreamingConfig config) id fullText d).streamStates id
        = none
    ∧ (onStreamCompleted (getStreamingConfig config) id fullText d).completedStreamIds.contains
        id = true
    ∧ (id, 60000) ∈ (onStreamCompleted (getStreamingConfig config) id fullText d).cleanupDelays
    ∧ timerFire id (onStreamCompleted (getStreamingConfig config) id fullText d)
        = onStreamCompleted (getStreamingConfig config) id fullText d
    ∧ (config.streamingEnabled.getD true = true →
        ∀ t : String,
          handleActorResponse config id (some t)
              (onStreamCompleted (getStreamingConfig config) id fullText d)
            = onStreamCompleted (getStreamingConfig config) id fullText d)
    ∧ (∀ st : StreamTurnState, lookupState d.streamStates id = some st →
        d.threadPresent = true → (flushContent st == "") = false →
        ∃ rest : List RenderOut,
          (onStreamCompleted (getStreamingConfig config) id fullText d).outs
            = d.outs ++ [flushRender st] ++ rest)
    ∧ lookupState (onStreamError (getStreamingConfig config) id errMsg d).streamStates id
        = none
    ∧ (onStreamError (getStreamingConfig config) id errMsg d).completedStreamIds.contains
        id = true
    ∧ (id, 60000) ∈ (onStreamError (getStreamingConfig config) id errMsg d).cleanupDelays
    ∧ (config.streamingEnabled.getD true = true →
        ∀ t : String,
          handleActorResponse config id (some t)
              (onStreamError (getStreamingConfig config) id errMsg d)
            = onStreamError (getStreamingConfig config) id errMsg d) := by
  have hnone : lookupState
      (onStreamCompleted (getStreamingConfig config) id fullText d).streamStates id = none := by
    simp only [onStreamCompleted]
    exact lookupState_removeState _ _
  have hcomp : (onStreamCompleted (getStreamingConfig config) id
      fullText d).completedStreamIds.contains id = true := by
    simp only [onStreamCompleted]
    exact contains_addCompleted _ _
  have henone : lookupState
      (onStreamError (getStreamingConfig config) id errMsg d).streamStates id = none := by
    simp only [onStreamError]
    exact lookupState_removeState _ _
  have hecomp : (onStreamError (getStreamingConfig config) id
      errMsg d).completedStreamIds.contains id = true := by
    simp only [onStreamError]
    exact contains_addCompleted _ _
  refine ⟨hnone, hcomp, ?_, ?_, ?_, ?_, henone, hecomp, ?_, ?_⟩
  · simp only [onStreamCompleted]
    exact List.mem_append_right _ (by simp)
  · simp [timerFire, hnone]
  · intro hen t
    exact handleActorResponse_suppressed config id t _ hen hcomp
  · intro st hs hth hne
    simp only [onStreamCompleted, hs]
    cases htm : st.timer with
    | false =>
        rw [if_neg (by simp)]
        have h2 := (flushNow_spec id d st hs hth hne).1
        obtain ⟨tail, htail⟩ := finalStage_prefix (getStreamingConfig config) (some st)
          fullText (flushNow id d)
        exact ⟨tail, by rw [← htail, h2]⟩
    | true =>
        rw [if_pos rfl]
        have hne2 : (flushContent { st with timer := false } == "") = false := by
          rw [flushContent_timer]
          exact hne
        have h2 := (flushNow_spec id
          { d with streamStates := setState d.streamStates id { st with timer := false } }
          { st with timer := false } (lookupState_setState _ _ _) hth hne2).1
        have h2b : (flushNow id
            { d with streamStates := setState d.streamStates id { st with timer := false } }).outs
            = d.outs ++ [flushRender st] := by
          simpa [flushRender_timer] using h2
        obtain ⟨tail, htail⟩ := finalStage_prefix (getStreamingConfig config) (some st)
          fullText (flushNow id
            { d with streamStates := setState d.streamStates id { st with timer := false } })
        exact ⟨tail, by rw [← htail, h2b]⟩
  · simp only [onStreamError]
    exact List.mem_append_right _ (by simp)
  · intro hen t
    exact handleActorResponse_suppressed config id t _ hen hecomp

/-- Witness for C6 at a concrete turn holding buffered content and a pending
timer. -/
theorem stream_completed_finalizes_witness :
    (∃ rest : List RenderOut,
      (onStreamCompleted (getStreamingConfig cfgBoth) "m1" "full" dTrailing).outs
        = dTrailing.outs ++ [flushRender stTrailing] ++ rest)
    ∧ handleActorResponse cfgBoth "m1" (some "late")
        (onStreamCompleted (getStreamingConfig cfgBoth) "m1" "full" dTrailing)
      = onStreamCompleted (getStreamingConfig cfgBoth) "m1" "full" dTrailing :=
  ⟨(stream_completed_finalizes cfgBoth "m1" "full" "err" dTrailing).2.2.2.2.2.1 stTrailing
      (by decide) (by decide) (by decide),
   (stream_completed_finalizes cfgBoth "m1" "full" "err" dTrailing).2.2.2.2.1 (by decide) "late"⟩

/-- Helper: scheduling a flush right after setting a turn state yields that
state with a pending timer. -/
theorem lookupState_scheduleFlush_set (id : String) (d : DiscordState)
    (v : StreamTurnState) :
    lookupState (scheduleFlush id
        { d with streamStates := setState d.streamStates id v }).streamStates id
      = some { v with timer := true } := by
  obtain ⟨b, tb, tm, th, mo⟩ := v
  simp only [scheduleFlush, lookupState_setState]
  cases htm : tm with
  | true =>
      rw [if_pos rfl]
      exact lookupState_setState _ _ _
  | false =>
      rw [if_neg (by simp)]
      exact lookupState_setState _ _ _

/-- C7 counterexample: the claim that a flush externalizes the tool buffer
followed by the text buffer fails as stated: a buffered text ending in a
space is externalized trimmed, so the flush content differs from the
claimed concatenation. -/
theorem stream_flush_concat_counterexample :
    (timerFire "m1" dTrailing).outs = [RenderOut.flushSend "hi"]
    ∧ stTrailing.toolBuffer
        ++ (if stTrailing.toolBuffer != "" && stTrailing.buffer != "" then "\n" else "")
        ++ stTrailing.buffer = "hi "
    ∧ ("hi" : String) ≠ "hi " :=
  ⟨by decide, by decide, by decide⟩

/-- C7 amended: per originalMessageId, a stream-partial appends its textDelta
to the text buffer and its toolChunk newline-joined to the tool buffer
and leaves a flush timer pending; a flush is scheduled only when none is
pending; a firing flush externalizes the trimmed concatenation of tool
buffer, newline separator and text buffer (capped at 1900 characters)
and clears both buffers; and the deltas Hello, comma-space and world
arriving within one interval produce exactly one externalized flush
containing exactly the concatenation. -/
theorem stream_partial_buffering_amended :
    (∀ (cfg : StreamCfg) (id : String) (d : DiscordState) (st : StreamTurnState)
        (td : String),
      lookupState d.streamStates id = some st → (td == "") = false →
      lookupState (onStreamPartial cfg id (some td) none d).streamStates id
        = some { st with buffer := st.buffer ++ td, timer := true })
    ∧ (∀ (cfg : StreamCfg) (id : String) (d : DiscordState) (st : StreamTurnState)
        (tc : String),
      lookupState d.streamStates id = some st → (tc == "") = false →
      lookupState (onStreamPartial cfg id none (some tc) d).streamStates id
        = some { st with
            toolBuffer := st.toolBuffer ++ (if st.toolBuffer != "" then "\n" else "") ++ tc,
            timer := true })
    ∧ (∀ (id : String) (d : DiscordState) (st : StreamTurnState),
      lookupState d.streamStates id = some st → st.timer = true →
      scheduleFlush id d = d)
    ∧ (∀ (id : String) (d : DiscordState) (st : StreamTurnState),
      lookupState d.streamStates id = some st → st.timer = true →
      d.threadPresent = true → (flushContent st == "") = false →
      (timerFire id d).outs = d.outs ++ [flushRender st]
      ∧ lookupState (timerFire id d).streamStates id
          = some { st with buffer := "", toolBuffer := "", timer := false })
    ∧ (timerFire "m1" (onStreamPartial (getStreamingConfig cfgBoth) "m1" (some "world") none
        (onStreamPartial (getStreamingConfig cfgBoth) "m1" (some ", ") none
          (onStreamPartial (getStreamingConfig cfgBoth) "m1" (some "Hello") none
            dEmpty)))).outs = [RenderOut.flushSend "Hello, world"] := by
  refine ⟨?_, ?_, ?_, ?_, by decide⟩
  · intro cfg id d st td hs htd
    simp only [onStreamPartial, hs, truthyStr, htd, Bool.not_false, if_true, if_false,
      Option.getD_some, Bool.false_eq_true]
    exact lookupState_scheduleFlush_set id d _
  · intro cfg id d st tc hs htc
    simp only [onStreamPartial, hs, truthyStr, htc, Bool.not_false, if_true, if_false,
      Option.getD_some, Bool.false_eq_true]
    exact lookupState_scheduleFlush_set id d _
  · intro id d st hs htm
    simp only [scheduleFlush, hs]
    rw [if_pos htm]
  · intro id d st hs htm hth hne
    simp only [timerFire, hs]
    rw [if_pos htm]
    have hspec := flushNow_spec id
      { d with streamStates := setState d.streamStates id { st with timer := false } }
      { st with timer := false } (lookupState_setState _ _ _) hth
      (by rw [flushContent_timer]; exact hne)
    constructor
    · simpa [flushRender_timer] using hspec.1
    · exact hspec.2

/-- Witness for the amended C7 theorem at a concrete pending turn. -/
theorem stream_partial_buffering_amended_witness :
    lookupState (onStreamPartial (getStreamingConfig cfgBoth) "m1" (some "x") none
        dTrailing).streamStates "m1"
      = some { stTrailing with buffer := stTrailing.buffer ++ "x", timer := true }
    ∧ (timerFire "m1" dTrailing).outs = dTrailing.outs ++ [flushRender stTrailing] :=
  ⟨stream_partial_buffering_amended.1 (getStreamingConfig cfgBoth) "m1" dTrailing
      stTrailing "x" (by decide) (by decide),
   (stream_partial_buffering_amended.2.2.2.1 "m1" dTrailing stTrailing
      (by decide) (by decide) (by decide) (by decide)).1⟩

/-- C9: sending to an unknown actor returns null, raises no exception, and
leaves the bus unchanged. -/
theorem send_unknown_actor (bus : SimpleMessageBus) (msg : ActorMsg)
    (h : lookupActor bus.actors msg.toName = none) :
    send bus msg = (Except.ok none, bus) := by
  simp [send, h]

/-- Witness for C9 at the empty bus. -/
theorem send_unknown_actor_witness :
    send busEmpty ghostMsg = (Except.ok none, busEmpty) :=
  send_unknown_actor busEmpty ghostMsg rfl

/-- Helper: the emit loop invokes every listener, in order. -/
theorem emitGo_invoked (msg : ActorMsg) :
    ∀ (ls : List Listener) (i : Nat),
      (emitGo msg i ls).invoked = List.range' i ls.length := by
  intro ls
  induction ls with
  | nil => intro i; rfl
  | cons l rest ih =>
      intro i
      simp only [emitGo]
      cases hl : l msg with
      | ok u => simp [ih, List.range']
      | error e => simp [ih, List.range']

/-- Helper: the emit loop never invokes an actor handler. -/
theorem emitGo_handlerCalls (msg : ActorMsg) :
    ∀ (ls : List Listener) (i : Nat), (emitGo msg i ls).handlerCalls = [] := by
  intro ls
  induction ls with
  | nil => intro i; rfl
  | cons l rest ih =>
      intro i
      simp only [emitGo]
      cases hl : l msg with
      | ok u => simp [ih]
      | error e => simp [ih]

/-- C10: every emit invokes every listener registered at the time of the
call, in registration order, even when earlier listeners throw (their
errors are caught and logged); emit itself never propagates a listener
exception and never invokes any actor handler. -/
theorem emit_reaches_all_listeners (bus : SimpleMessageBus) (msg : ActorMsg) :
    ∃ tr : EmitTrace, emit bus msg = Except.ok tr
      ∧ tr.invoked = List.range bus.listeners.length
      ∧ tr.handlerCalls = [] := by
  unfold emit
  cases hl : bus.listeners.length == 0 with
  | true =>
      rw [if_pos rfl]
      refine ⟨_, rfl, ?_, rfl⟩
      have h0 : bus.listeners.length = 0 := by simpa using hl
      rw [h0]
      rfl
  | false =>
      rw [if_neg (by simp)]
      refine ⟨_, rfl, ?_, emitGo_handlerCalls msg bus.listeners 0⟩
      rw [emitGo_invoked msg bus.listeners 0, List.range_eq_range']

end CcDiscord
